import Mathlib

/-!
Shallow embedding of `src/generator.py` (nbkr/sitegenerator2), a static
site generator: it walks a content tree, renders each markdown file with a
two-pass jinja substitution (content pass, then page-template pass), and
copies every other file verbatim into a build tree.

Conventions of the embedding:
* Python strings are Lean `String`s; the Python string methods the code
  uses (`split("\n")`, `replace('# ', '')`, `strip()`, `startswith('# ')`,
  `endswith(...)`) are given executable structural definitions over the
  string's character list, each documented at its definition.
* The mutable `var` dictionary is a function `String → Option PyVal`
  (`none` = key absent); Python `None` is `PyVal.vnone`.
* The front-matter mapping is an association list with first-match lookup.
* The set of template artifacts existing under `<projectdir>/templates/` is a
  `List String`; `os.path.exists` on a template name is list membership.
* jinja2 rendering is abstracted by a `Jinja` record of two functions that
  return `Option String` (`none` models the exception caught by the
  `try/except` blocks at lines 118-122 and 125-130 of generator.py).
-/

namespace Generator

/-- A value stored in the `var` dictionary: Python `None` or a string. -/
inductive PyVal where
  | vnone : PyVal
  | vstr : String → PyVal
deriving DecidableEq

/-- The `var` dictionary built in `main_generate` (lines 68-71): a key is
mapped to `some v` when present, `none` when absent. -/
def Vars : Type := String → Option PyVal

/-- Python dict assignment `var[k] = v`. -/
def dictSet (var : Vars) (k : String) (v : PyVal) : Vars :=
  fun key => if key = k then some v else var key

/-- Lookup in the front-matter mapping (Python `front_matter[k]`,
`k in front_matter` is `(lookupFM fm k).isSome`). -/
def lookupFM : List (String × String) → String → Option String
  | [], _ => Option.none
  | (k, v) :: rest, key => if k = key then some v else lookupFM rest key

/-- Python `s.split("\n")`: split a character list at every newline; the
result always has at least one (possibly empty) piece. -/
def splitOnNl : List Char → List (List Char)
  | [] => [[]]
  | c :: cs =>
    match splitOnNl cs with
    | [] => [[]]
    | l :: ls => if c = '\n' then [] :: l :: ls else (c :: l) :: ls

/-- Python `l.startswith('# ')`: the first two characters are `'#'`
then `' '`. -/
def startsWithHashSpace : List Char → Bool
  | '#' :: ' ' :: _ => true
  | _ => false

/-- Python `l.replace('# ', '')`: remove every non-overlapping occurrence of
the two-character pattern `"# "`, scanning left to right. -/
def removeHashSpace : List Char → List Char
  | '#' :: ' ' :: cs => removeHashSpace cs
  | c :: cs => c :: removeHashSpace cs
  | [] => []

/-- Python's whitespace for `str.strip()`: space, tab, newline, carriage
return, vertical tab, form feed. -/
def isPyWhitespaceChar (c : Char) : Bool :=
  c = ' ' || c = '\t' || c = '\n' || c = '\r' || c = '\x0b' || c = '\x0c'

/-- Python `s.strip()`: drop leading and trailing whitespace. -/
def pyStrip (cs : List Char) : List Char :=
  ((cs.dropWhile isPyWhitespaceChar).reverse.dropWhile isPyWhitespaceChar).reverse

/-- Is the first list a prefix of the second? -/
def prefixOfChars : List Char → List Char → Bool
  | [], _ => true
  | _ :: _, [] => false
  | p :: ps, c :: cs => p = c && prefixOfChars ps cs

/-- Python `s.endswith(pat)`: `pat` is a suffix of `s`. -/
def suffixOfChars (pat cs : List Char) : Bool :=
  prefixOfChars pat.reverse cs.reverse

/-- The value returned for a matching heading line (generator.py line 33):
`l.replace('# ', '').strip()`. -/
def headingTitle (l : List Char) : List Char :=
  pyStrip (removeHashSpace l)

/-- The loop body of `get_first_heading` (generator.py lines 31-33):
return the first line that starts with the two characters `"# "`, with every
occurrence of `"# "` removed (Python `l.replace('# ', '')`) and surrounding
whitespace stripped; `None` when no line matches. -/
def firstHeadingOfLines : List (List Char) → Option (List Char)
  | [] => Option.none
  | l :: ls =>
    if startsWithHashSpace l then some (headingTitle l)
    else firstHeadingOfLines ls

/-- `get_first_heading(markdown)` (generator.py lines 29-33). -/
def get_first_heading (markdown : String) : Option String :=
  (firstHeadingOfLines (splitOnNl markdown.toList)).map String.mk

/-- Coercion of `get_first_heading`'s Python return value into the `var`
dictionary: `None` stays `None`, a string stays a string. -/
def pyOfOpt : Option String → PyVal
  | Option.none => PyVal.vnone
  | some s => PyVal.vstr s

/-- Lines 109-114 of generator.py:
`var['title'] = get_first_heading(raw)` followed by
`if 'title' in front_matter: var['title'] = front_matter['title']`. -/
def setTitle (var : Vars) (front_matter : List (String × String)) (raw : String) :
    Vars :=
  let v := dictSet var "title" (pyOfOpt (get_first_heading raw))
  match lookupFM front_matter "title" with
  | some t => dictSet v "title" (PyVal.vstr t)
  | Option.none => v

/-- The title value the code stores under `var['title']` for a document with
the given front matter and raw text. -/
def resolvedTitlePy (front_matter : List (String × String)) (raw : String) : PyVal :=
  match lookupFM front_matter "title" with
  | some t => PyVal.vstr t
  | Option.none => pyOfOpt (get_first_heading raw)

theorem setTitle_title (var : Vars) (fm : List (String × String)) (raw : String) :
    setTitle var fm raw "title" = some (resolvedTitlePy fm raw) := by
  unfold setTitle resolvedTitlePy
  cases lookupFM fm "title" <;> simp [dictSet]

theorem setTitle_other (var : Vars) (fm : List (String × String)) (raw : String)
    (k : String) (hk : k ≠ "title") : setTitle var fm raw k = var k := by
  unfold setTitle
  cases lookupFM fm "title" <;> simp [dictSet, hk]

theorem firstHeadingOfLines_eq_find (ls : List (List Char)) (l : List Char)
    (h : ls.find? startsWithHashSpace = some l) :
    firstHeadingOfLines ls = some (headingTitle l) := by
  induction ls with
  | nil => simp [List.find?] at h
  | cons a as ih =>
    by_cases ha : startsWithHashSpace a
    · simp [List.find?, ha] at h
      subst h
      simp [firstHeadingOfLines, ha]
    · simp only [Bool.not_eq_true] at ha
      rw [List.find?] at h
      simp only [ha] at h
      simp [firstHeadingOfLines, ha, ih h]

theorem firstHeadingOfLines_none (ls : List (List Char))
    (h : ∀ l ∈ ls, startsWithHashSpace l = false) :
    firstHeadingOfLines ls = Option.none := by
  induction ls with
  | nil => rfl
  | cons a as ih =>
    have ha := h a (List.mem_cons_self a as)
    simp [firstHeadingOfLines, ha]
    exact ih (fun l hl => h l (List.mem_cons_of_mem a hl))

/-- The default template name (generator.py line 94). -/
def default_template : String := "default.html"

/-- Template resolution (generator.py lines 94-103). `templates` is the set
of artifact names existing under `<projectdir>/templates/`. Returns the
chosen template name and whether the `logging.warning` fallback branch
(line 99) ran. -/
def resolveTemplate (templates : List String) (front_matter : List (String × String)) :
    String × Bool :=
  match lookupFM front_matter "template" with
  | Option.none => (default_template, false)
  | some t => if templates.contains t then (t, false) else (default_template, true)

/-- One markdown document as produced by `parse_markdown_with_front_matter`
(generator.py lines 43-59): `front_matter` is the parsed front-matter
mapping, `content` the mistletoe-rendered HTML body, `raw` the raw file
text; `fname` is the file's base name. -/
structure Doc where
  fname : String
  front_matter : List (String × String)
  content : String
  raw : String
deriving DecidableEq

/-- Abstraction of jinja2. `renderString src var` models
`Environment(loader=BaseLoader).from_string(src).render(var=var)`
(line 117/119); `renderTemplate name content var` models
`env.get_template(name).render(content=content, var=var)` (line 127).
A result of `none` models the exception the surrounding `try/except`
catches. -/
structure Jinja where
  renderString : String → Vars → Option String
  renderTemplate : String → String → Vars → Option String

/-- A substitution pass recorded while rendering one document: the content
pass carries its input (the mistletoe HTML) and its result; the page pass
carries the template name, the `content=` binding it received, and its
result. -/
inductive PassEvent where
  | contentPass : String → Option String → PassEvent
  | pagePass : String → String → Option String → PassEvent
deriving DecidableEq

/-- Outcome of rendering one markdown document: the written HTML, or a
`sys.exit(1)` from the content pass (line 122) or the page pass (line 130). -/
inductive DocOutcome where
  | ok : String → DocOutcome
  | fatalContent : DocOutcome
  | fatalPage : DocOutcome
deriving DecidableEq

/-- Observable record of one document's rendering: template chosen, whether
the missing-template warning was logged, the `var` dictionary in effect
during the two passes, the passes run, and the outcome. -/
structure DocTrace where
  tmpl : String
  warning : Bool
  vars : Vars
  events : List PassEvent
  outcome : DocOutcome

/-- The markdown branch of the per-file loop (generator.py lines 87-130):
template resolution, title injection into `var`, the content-level pass,
then the page-level pass. Returns the `var` dictionary as mutated by this
document (the same object flows into the next iteration) and the trace. -/
def renderDoc (templates : List String) (J : Jinja) (var : Vars) (d : Doc) :
    Vars × DocTrace :=
  let tw := resolveTemplate templates d.front_matter
  let var2 := setTitle var d.front_matter d.raw
  match J.renderString d.content var2 with
  | Option.none =>
    (var2, ⟨tw.1, tw.2, var2, [PassEvent.contentPass d.content Option.none],
      DocOutcome.fatalContent⟩)
  | some c2 =>
    match J.renderTemplate tw.1 c2 var2 with
    | Option.none =>
      (var2, ⟨tw.1, tw.2, var2,
        [PassEvent.contentPass d.content (some c2),
         PassEvent.pagePass tw.1 c2 Option.none],
        DocOutcome.fatalPage⟩)
    | some h =>
      (var2, ⟨tw.1, tw.2, var2,
        [PassEvent.contentPass d.content (some c2),
         PassEvent.pagePass tw.1 c2 (some h)],
        DocOutcome.ok h⟩)

theorem renderDoc_vars (templates : List String) (J : Jinja) (var : Vars) (d : Doc) :
    ((renderDoc templates J var d).2.vars = setTitle var d.front_matter d.raw) ∧
    ((renderDoc templates J var d).1 = setTitle var d.front_matter d.raw) := by
  cases hr : J.renderString d.content (setTitle var d.front_matter d.raw) with
  | none => simp [renderDoc, hr]
  | some c2 =>
    cases hp : J.renderTemplate (resolveTemplate templates d.front_matter).1 c2
        (setTitle var d.front_matter d.raw) with
    | none => simp [renderDoc, hr, hp]
    | some h => simp [renderDoc, hr, hp]

/-- Index of the last occurrence of a character in a list of characters. -/
def lastIdxOf (c : Char) : List Char → Option Nat
  | [] => Option.none
  | x :: xs =>
    match lastIdxOf c xs with
    | some i => some (i + 1)
    | Option.none => if x = c then some 0 else Option.none

/-- `os.path.splitext` for a bare file name (no path separator in it):
split at the last dot, unless every character before that dot is itself a
dot (then there is no extension). -/
def py_splitext (p : String) : String × String :=
  let cs := p.toList
  match lastIdxOf '.' cs with
  | Option.none => (p, "")
  | some i =>
    if (cs.take i).any (fun ch => ch ≠ '.') then
      (String.mk (cs.take i), String.mk (cs.drop i))
    else (p, "")

/-- Output file name of a rendered markdown file (generator.py line 133):
`'{}.html'.format(os.path.splitext(file)[0])`. -/
def outName (fname : String) : String := (py_splitext fname).1 ++ ".html"

/-- Result of running the generate loop over a list of documents: the
output files written (name, html), or `sys.exit` with the given code after
the written outputs. -/
inductive RunResult where
  | finished : List (String × String) → RunResult
  | exited : Nat → List (String × String) → RunResult
deriving DecidableEq

/-- Prepend a written output file to a run result. -/
def consOutput (name html : String) : RunResult → RunResult
  | RunResult.finished outs => RunResult.finished ((name, html) :: outs)
  | RunResult.exited c outs => RunResult.exited c ((name, html) :: outs)

/-- The generate run restricted to its markdown documents, in traversal
order, threading the mutable `var` dictionary from one document to the
next; a fatal outcome is `sys.exit(1)`: no later document is processed. -/
def runDocs (templates : List String) (J : Jinja) : Vars → List Doc → RunResult
  | _, [] => RunResult.finished []
  | var, d :: rest =>
    match (renderDoc templates J var d).2.outcome with
    | DocOutcome.ok h =>
      consOutput (outName d.fname) h
        (runDocs templates J (renderDoc templates J var d).1 rest)
    | DocOutcome.fatalContent => RunResult.exited 1 []
    | DocOutcome.fatalPage => RunResult.exited 1 []

/-- The traces of the documents actually processed by the run, in order
(the run stops after the first fatal document). -/
def runTraces (templates : List String) (J : Jinja) : Vars → List Doc → List DocTrace
  | _, [] => []
  | var, d :: rest =>
    match (renderDoc templates J var d).2.outcome with
    | DocOutcome.ok _ =>
      (renderDoc templates J var d).2 ::
        runTraces templates J (renderDoc templates J var d).1 rest
    | _ => [(renderDoc templates J var d).2]

/-- The `var` dictionary in effect during the rendering of the `i`-th
processed document (the empty dictionary past the end of the run). -/
def traceVarsAt (trs : List DocTrace) (i : Nat) : Vars :=
  match trs.get? i with
  | some tr => tr.vars
  | Option.none => fun _ => Option.none

/-- What the per-file branch of the walk does with a file (generator.py
lines 83-89 and 132-134): either copy it verbatim to the destination under
its own name, or render it and write the result under the renamed output
name. -/
inductive WalkAction where
  | copyFile : String → String → WalkAction
  | renderFile : String → WalkAction
deriving DecidableEq

/-- The dispatch `if not file.endswith('md'): shutil.copy(...) else: render`
(generator.py lines 84-89): a copy keeps the name and the bytes, a render
writes to `os.path.splitext(file)[0] + '.html'` (line 133). -/
def fileAction (fname bytes : String) : WalkAction :=
  if !(suffixOfChars "md".toList fname.toList) then WalkAction.copyFile fname bytes
  else WalkAction.renderFile (outName fname)

mutual

/-- A directory tree as seen by `os.walk` over the content root: a node
holds the directory's name, its plain file names, and its subdirectories. -/
inductive FTree where
  | node : String → List String → FForest → FTree

/-- A list of sibling subdirectories. -/
inductive FForest where
  | fnil : FForest
  | fcons : FTree → FForest → FForest

end

/-- Name of the root directory of a tree. -/
def FTree.name : FTree → String
  | FTree.node n _ _ => n

/-- File-system events of the generate walk, with paths given as segment
lists relative to the build root (`[]` is the build root itself). -/
inductive WEvent where
  | mkdir : List String → WEvent
  | write : List String → String → WEvent
deriving DecidableEq

mutual

/-- Events of the `os.walk` loop (generator.py lines 80-134) started at a
tree whose mirrored destination is `dest`: `os.walk` is top-down, so each
yielded directory runs `os.mkdir(dest)` (line 82) and then writes its files
(copy at line 86 or rendered output at line 133) before any subdirectory is
yielded. -/
def walkEvents : FTree → List String → List WEvent
  | FTree.node _ files subs, dest =>
    WEvent.mkdir dest ::
      (files.map (fun f => WEvent.write dest f) ++ walkForest subs dest)

/-- Events of walking each subdirectory of a directory `dest`, in order. -/
def walkForest : FForest → List String → List WEvent
  | FForest.fnil, _ => []
  | FForest.fcons t ts, dest =>
    walkEvents t (dest ++ [t.name]) ++ walkForest ts dest

end

/-- Replay a trace of events against the set of already-created directories:
`true` iff every `mkdir` is the build root or has an already-created parent,
and every file write targets an already-created directory. -/
def goodFrom (created : List (List String)) : List WEvent → Bool
  | [] => true
  | WEvent.mkdir p :: rest =>
    decide (p = [] ∨ p.dropLast ∈ created) && goodFrom (p :: created) rest
  | WEvent.write p _ :: rest => decide (p ∈ created) && goodFrom created rest

/-- The set of created directories after replaying a trace. -/
def afterCreated (created : List (List String)) : List WEvent → List (List String)
  | [] => created
  | WEvent.mkdir p :: rest => afterCreated (p :: created) rest
  | WEvent.write _ _ :: rest => afterCreated created rest

/-- Outcome of the top-level dispatch: whether usage/help text was printed
and the process exit status. -/
structure CLIOutcome where
  printsUsage : Bool
  exitCode : Nat
deriving DecidableEq

/-- The top-level dispatch (generator.py lines 169-173), for an invocation
whose positional `projectdir` parsed successfully. When a subcommand was
given, `args.func(args)` runs and the process exits with that run's status.
When no subcommand was given, `'func' not in args`, so the program runs
`parser.parse_args(['--help'])`: argparse's help action prints the usage
text and raises `SystemExit(0)`, i.e. the process exits with status 0. -/
def dispatch (hasSubcommand : Bool) (subExit : Nat) : CLIOutcome :=
  if hasSubcommand then ⟨false, subExit⟩ else ⟨true, 0⟩

/-! ## Claim theorems -/

/-- C3: for every document whose front-matter mapping contains a `title`
key, the resolved title stored in `var` and used for both rendering passes
equals that key's value, regardless of any heading lines in the document
body (the raw text `d.raw` is arbitrary). -/
theorem c3_front_matter_title_wins (templates : List String) (J : Jinja)
    (var : Vars) (d : Doc) (t : String)
    (h : lookupFM d.front_matter "title" = some t) :
    (renderDoc templates J var d).2.vars "title" = some (PyVal.vstr t) := by
  rw [(renderDoc_vars templates J var d).1, setTitle_title]
  unfold resolvedTitlePy
  rw [h]

theorem c3_witness :
    (renderDoc ["default.html"] ⟨fun s _ => some s, fun _ c _ => some c⟩
        (fun _ => Option.none)
        ⟨"a.md", [("title", "Hello")], "body", "# World"⟩).2.vars "title" =
      some (PyVal.vstr "Hello") :=
  c3_front_matter_title_wins ["default.html"] ⟨fun s _ => some s, fun _ c _ => some c⟩
    (fun _ => Option.none) ⟨"a.md", [("title", "Hello")], "body", "# World"⟩
    "Hello" (by decide)

/-- C4 fails as stated: for the document with raw text `"# A # B"` and no
front-matter `title`, the code resolves the title to `"A B"` (the
`replace('# ', '')` call removes every occurrence of the marker), while the
claim requires only the leading marker to be stripped, which would give
`"A # B"`. -/
theorem c4_counterexample :
    (renderDoc [] ⟨fun s _ => some s, fun _ c _ => some c⟩ (fun _ => Option.none)
        ⟨"a.md", [], "", "# A # B"⟩).2.vars "title" = some (PyVal.vstr "A B") ∧
    String.mk (pyStrip ("# A # B".toList.drop 2)) = "A # B" ∧
    ("A B" : String) ≠ "A # B" := by decide

/-- C4 amended: for every document without a `title` front-matter key whose
raw text contains a line beginning with `"# "`, the resolved title equals
the text of the first such line with every occurrence of the two-character
sequence `"# "` removed and surrounding whitespace trimmed. -/
theorem c4_first_heading_strips_every_marker_occurrence
    (templates : List String) (J : Jinja) (var : Vars) (d : Doc) (l : List Char)
    (hfm : lookupFM d.front_matter "title" = Option.none)
    (hfind : (splitOnNl d.raw.toList).find? startsWithHashSpace = some l) :
    (renderDoc templates J var d).2.vars "title" =
      some (PyVal.vstr (String.mk (headingTitle l))) := by
  rw [(renderDoc_vars templates J var d).1, setTitle_title]
  have hh := firstHeadingOfLines_eq_find _ _ hfind
  rw [String.toList] at hh
  simp [resolvedTitlePy, hfm, get_first_heading, hh, pyOfOpt]

theorem c4_witness :
    (splitOnNl ("x\n# T one\ny" : String).toList).find? startsWithHashSpace =
        some "# T one".toList ∧
    (renderDoc [] ⟨fun s _ => some s, fun _ c _ => some c⟩ (fun _ => Option.none)
        ⟨"b.md", [], "c", "x\n# T one\ny"⟩).2.vars "title" =
      some (PyVal.vstr (String.mk (headingTitle "# T one".toList))) :=
  ⟨by decide,
    c4_first_heading_strips_every_marker_occurrence [] _ (fun _ => Option.none)
      ⟨"b.md", [], "c", "x\n# T one\ny"⟩ "# T one".toList (by decide) (by decide)⟩

/-- C10: for every document whose front matter has no `title` key and whose
raw text has no line starting with `"# "`, the `title` binding present in
the `var` dictionary passed to both rendering passes is Python `None`, not
the empty string. -/
theorem c10_absent_title_is_pynone (templates : List String) (J : Jinja)
    (var : Vars) (d : Doc)
    (hfm : lookupFM d.front_matter "title" = Option.none)
    (hhead : ∀ l ∈ splitOnNl d.raw.toList, startsWithHashSpace l = false) :
    (renderDoc templates J var d).2.vars "title" = some PyVal.vnone ∧
    PyVal.vnone ≠ PyVal.vstr "" := by
  refine ⟨?_, by simp⟩
  rw [(renderDoc_vars templates J var d).1, setTitle_title]
  have hh := firstHeadingOfLines_none _ hhead
  rw [String.toList] at hh
  simp [resolvedTitlePy, hfm, get_first_heading, hh, pyOfOpt]

theorem c10_witness :
    (renderDoc [] ⟨fun s _ => some s, fun _ c _ => some c⟩ (fun _ => Option.none)
        ⟨"n.md", [("template", "t.html")], "c", "hello\nworld"⟩).2.vars "title" =
      some PyVal.vnone ∧ PyVal.vnone ≠ PyVal.vstr "" :=
  c10_absent_title_is_pynone [] ⟨fun s _ => some s, fun _ c _ => some c⟩
    (fun _ => Option.none) ⟨"n.md", [("template", "t.html")], "c", "hello\nworld"⟩
    (by decide) (by decide)

/-- C1: a document whose front matter names a template that does not exist
under the template root logs a recoverable warning, renders with
`default.html` instead, and the run goes on to the remaining documents
(provided the two substitution passes themselves succeed). -/
theorem c1_missing_template_warns_and_falls_back
    (templates : List String) (J : Jinja) (var : Vars) (d : Doc)
    (rest : List Doc) (t c2 h : String)
    (ht : lookupFM d.front_matter "template" = some t)
    (hmiss : templates.contains t = false)
    (hc : J.renderString d.content (setTitle var d.front_matter d.raw) = some c2)
    (hp : J.renderTemplate default_template c2 (setTitle var d.front_matter d.raw) =
      some h) :
    (renderDoc templates J var d).2.warning = true ∧
    (renderDoc templates J var d).2.tmpl = default_template ∧
    (renderDoc templates J var d).2.outcome = DocOutcome.ok h ∧
    runDocs templates J var (d :: rest) =
      consOutput (outName d.fname) h
        (runDocs templates J (setTitle var d.front_matter d.raw) rest) := by
  have hmiss2 : t ∉ templates := by simpa using hmiss
  have hres : resolveTemplate templates d.front_matter = (default_template, true) := by
    simp [resolveTemplate, ht, hmiss2]
  have hrd : renderDoc templates J var d =
      (setTitle var d.front_matter d.raw,
        ⟨default_template, true, setTitle var d.front_matter d.raw,
          [PassEvent.contentPass d.content (some c2),
           PassEvent.pagePass default_template c2 (some h)], DocOutcome.ok h⟩) := by
    simp [renderDoc, hres, hc, hp]
  refine ⟨by rw [hrd], by rw [hrd], by rw [hrd], ?_⟩
  simp [runDocs, hrd]

theorem c1_witness :
    (renderDoc ["default.html"] ⟨fun s _ => some s, fun _ c _ => some c⟩
        (fun _ => Option.none)
        ⟨"c.md", [("template", "special.html")], "body", ""⟩).2.warning = true ∧
    (renderDoc ["default.html"] ⟨fun s _ => some s, fun _ c _ => some c⟩
        (fun _ => Option.none)
        ⟨"c.md", [("template", "special.html")], "body", ""⟩).2.tmpl =
      default_template ∧
    (renderDoc ["default.html"] ⟨fun s _ => some s, fun _ c _ => some c⟩
        (fun _ => Option.none)
        ⟨"c.md", [("template", "special.html")], "body", ""⟩).2.outcome =
      DocOutcome.ok "body" ∧
    runDocs ["default.html"] ⟨fun s _ => some s, fun _ c _ => some c⟩
        (fun _ => Option.none)
        [⟨"c.md", [("template", "special.html")], "body", ""⟩] =
      consOutput (outName "c.md") "body"
        (runDocs ["default.html"] ⟨fun s _ => some s, fun _ c _ => some c⟩
          (setTitle (fun _ => Option.none) [("template", "special.html")] "") []) :=
  c1_missing_template_warns_and_falls_back ["default.html"]
    ⟨fun s _ => some s, fun _ c _ => some c⟩ (fun _ => Option.none)
    ⟨"c.md", [("template", "special.html")], "body", ""⟩ []
    "special.html" "body" "body" (by decide) (by decide) (by decide) (by decide)

/-- C2: when either substitution pass of a document raises (the content
pass, line 122, or the page pass, line 130), the run calls `sys.exit(1)`
at that document: the result is exit status 1 and none of the remaining
documents is processed (the result does not depend on `rest`). -/
theorem c2_substitution_error_aborts_run
    (templates : List String) (J : Jinja) (var : Vars) (d : Doc) (rest : List Doc)
    (hfail : (renderDoc templates J var d).2.outcome = DocOutcome.fatalContent ∨
      (renderDoc templates J var d).2.outcome = DocOutcome.fatalPage) :
    runDocs templates J var (d :: rest) = RunResult.exited 1 [] := by
  rcases hfail with hf | hf <;> simp [runDocs, hf]

theorem c2_witness :
    ((renderDoc ["default.html"] ⟨fun _ _ => Option.none, fun _ c _ => some c⟩
        (fun _ => Option.none) ⟨"a.md", [], "body", ""⟩).2.outcome =
          DocOutcome.fatalContent ∨
      (renderDoc ["default.html"] ⟨fun _ _ => Option.none, fun _ c _ => some c⟩
        (fun _ => Option.none) ⟨"a.md", [], "body", ""⟩).2.outcome =
          DocOutcome.fatalPage) ∧
    runDocs ["default.html"] ⟨fun _ _ => Option.none, fun _ c _ => some c⟩
        (fun _ => Option.none)
        [⟨"a.md", [], "body", ""⟩, ⟨"b.md", [], "x", ""⟩] =
      RunResult.exited 1 [] :=
  ⟨Or.inl (by decide),
    c2_substitution_error_aborts_run ["default.html"]
      ⟨fun _ _ => Option.none, fun _ c _ => some c⟩ (fun _ => Option.none)
      ⟨"a.md", [], "body", ""⟩ [⟨"b.md", [], "x", ""⟩] (Or.inl (by decide))⟩

/-- C6: whenever the page-level pass runs for a document, the recorded
passes are exactly the content-level pass followed by the page-level pass,
and the `content=` value bound into the page template is the successful
output of the content-level pass (`renderString` applied to the document's
mistletoe HTML), not the raw markdown and not the un-substituted HTML. -/
theorem c6_content_pass_output_feeds_page_pass
    (templates : List String) (J : Jinja) (var : Vars) (d : Doc)
    (tm body : String) (r : Option String)
    (hpage : PassEvent.pagePass tm body r ∈ (renderDoc templates J var d).2.events) :
    J.renderString d.content (setTitle var d.front_matter d.raw) = some body ∧
    (renderDoc templates J var d).2.events =
      [PassEvent.contentPass d.content (some body),
       PassEvent.pagePass tm body r] := by
  cases hr : J.renderString d.content (setTitle var d.front_matter d.raw) with
  | none => simp [renderDoc, hr] at hpage
  | some c2 =>
    cases hp : J.renderTemplate (resolveTemplate templates d.front_matter).1 c2
        (setTitle var d.front_matter d.raw) with
    | none =>
      simp only [renderDoc, hr, hp, List.mem_cons, List.not_mem_nil, or_false] at hpage
      rcases hpage with hpage | hpage
      · exact absurd hpage (by simp)
      · obtain ⟨h1, h2, h3⟩ := PassEvent.pagePass.inj hpage
        subst h1; subst h2; subst h3
        simp [renderDoc, hr, hp]
    | some hh =>
      simp only [renderDoc, hr, hp, List.mem_cons, List.not_mem_nil, or_false] at hpage
      rcases hpage with hpage | hpage
      · exact absurd hpage (by simp)
      · obtain ⟨h1, h2, h3⟩ := PassEvent.pagePass.inj hpage
        subst h1; subst h2; subst h3
        simp [renderDoc, hr, hp]

theorem c6_witness :
    PassEvent.pagePass "default.html" "body" (some "body") ∈
      (renderDoc ["default.html"] ⟨fun s _ => some s, fun _ c _ => some c⟩
        (fun _ => Option.none) ⟨"a.md", [], "body", ""⟩).2.events ∧
    (⟨fun s _ => some s, fun _ c _ => some c⟩ : Jinja).renderString "body"
        (setTitle (fun _ => Option.none) [] "") = some "body" ∧
    (renderDoc ["default.html"] ⟨fun s _ => some s, fun _ c _ => some c⟩
        (fun _ => Option.none) ⟨"a.md", [], "body", ""⟩).2.events =
      [PassEvent.contentPass "body" (some "body"),
       PassEvent.pagePass "default.html" "body" (some "body")] :=
  ⟨by decide,
    (c6_content_pass_output_feeds_page_pass ["default.html"]
        ⟨fun s _ => some s, fun _ c _ => some c⟩ (fun _ => Option.none)
        ⟨"a.md", [], "body", ""⟩ "default.html" "body" (some "body")
        (by decide)).1,
    (c6_content_pass_output_feeds_page_pass ["default.html"]
        ⟨fun s _ => some s, fun _ c _ => some c⟩ (fun _ => Option.none)
        ⟨"a.md", [], "body", ""⟩ "default.html" "body" (some "body")
        (by decide)).2⟩

theorem traceVarsAt_cons_zero (tr : DocTrace) (l : List DocTrace) :
    traceVarsAt (tr :: l) 0 = tr.vars := rfl

theorem traceVarsAt_cons_succ (tr : DocTrace) (l : List DocTrace) (i : Nat) :
    traceVarsAt (tr :: l) (i + 1) = traceVarsAt l i := rfl

theorem runTraces_fresh_title (templates : List String) (J : Jinja) (var0 : Vars)
    (docs : List Doc) :
    ∀ var : Vars, (∀ k, k ≠ "title" → var k = var0 k) →
      ∀ (i : Nat) (d : Doc), docs.get? i = some d →
        i < (runTraces templates J var docs).length →
        traceVarsAt (runTraces templates J var docs) i "title" =
          some (resolvedTitlePy d.front_matter d.raw) ∧
        (∀ k, k ≠ "title" →
          traceVarsAt (runTraces templates J var docs) i k = var0 k) := by
  induction docs with
  | nil =>
    intro var _ i d hget _
    simp at hget
  | cons d0 rest ih =>
    intro var hagree i d hget hlen
    have hv2 := (renderDoc_vars templates J var d0).1
    have hv1 := (renderDoc_vars templates J var d0).2
    have atZero : ∀ hd : d = d0,
        (renderDoc templates J var d0).2.vars "title" =
          some (resolvedTitlePy d.front_matter d.raw) ∧
        (∀ k, k ≠ "title" → (renderDoc templates J var d0).2.vars k = var0 k) := by
      intro hd
      subst hd
      rw [hv2]
      exact ⟨setTitle_title var d.front_matter d.raw,
        fun k hk => by rw [setTitle_other var _ _ k hk]; exact hagree k hk⟩
    cases hout : (renderDoc templates J var d0).2.outcome with
    | ok h =>
      have hrt : runTraces templates J var (d0 :: rest) =
          (renderDoc templates J var d0).2 ::
            runTraces templates J (renderDoc templates J var d0).1 rest := by
        simp [runTraces, hout]
      cases i with
      | zero =>
        have hd : d0 = d := by simpa using hget
        rw [hrt, traceVarsAt_cons_zero]
        exact atZero hd.symm
      | succ j =>
        have hget2 : rest.get? j = some d := by simpa using hget
        have hagree2 : ∀ k, k ≠ "title" →
            (renderDoc templates J var d0).1 k = var0 k := by
          intro k hk
          rw [hv1, setTitle_other var _ _ k hk]
          exact hagree k hk
        have hlen2 : j <
            (runTraces templates J (renderDoc templates J var d0).1 rest).length := by
          rw [hrt] at hlen
          simpa [Nat.succ_lt_succ_iff] using hlen
        rw [hrt, traceVarsAt_cons_succ]
        exact ih (renderDoc templates J var d0).1 hagree2 j d hget2 hlen2
    | fatalContent =>
      have hrt : runTraces templates J var (d0 :: rest) =
          [(renderDoc templates J var d0).2] := by
        simp [runTraces, hout]
      rw [hrt] at hlen
      have hi : i = 0 := Nat.lt_one_iff.mp (by simpa using hlen)
      subst hi
      have hd : d0 = d := by simpa using hget
      rw [hrt, traceVarsAt_cons_zero]
      exact atZero hd.symm
    | fatalPage =>
      have hrt : runTraces templates J var (d0 :: rest) =
          [(renderDoc templates J var d0).2] := by
        simp [runTraces, hout]
      rw [hrt] at hlen
      have hi : i = 0 := Nat.lt_one_iff.mp (by simpa using hlen)
      subst hi
      have hd : d0 = d := by simpa using hget
      rw [hrt, traceVarsAt_cons_zero]
      exact atZero hd.symm

/-- C8: in one run, the `var` dictionary in effect while the `i`-th document
renders carries a `title` freshly derived from that very document (its
front matter, else its first heading), and every other key still holds its
initial project-config value: the title injected for an earlier document
never influences a later document's rendering. -/
theorem c8_title_is_fresh_per_document
    (templates : List String) (J : Jinja) (var0 : Vars) (docs : List Doc)
    (i : Nat) (d : Doc) (hget : docs.get? i = some d)
    (hlen : i < (runTraces templates J var0 docs).length) :
    traceVarsAt (runTraces templates J var0 docs) i "title" =
      some (resolvedTitlePy d.front_matter d.raw) ∧
    (∀ k, k ≠ "title" →
      traceVarsAt (runTraces templates J var0 docs) i k = var0 k) :=
  runTraces_fresh_title templates J var0 docs var0 (fun _ _ => rfl) i d hget hlen

theorem c8_witness :
    traceVarsAt
      (runTraces ["default.html"] ⟨fun s _ => some s, fun _ c _ => some c⟩
        (fun _ => Option.none)
        [⟨"a.md", [("title", "One")], "x", ""⟩, ⟨"b.md", [], "y", "# Two"⟩]) 1
      "title" =
      some (resolvedTitlePy ([] : List (String × String)) "# Two") :=
  (c8_title_is_fresh_per_document ["default.html"]
    ⟨fun s _ => some s, fun _ c _ => some c⟩ (fun _ => Option.none)
    [⟨"a.md", [("title", "One")], "x", ""⟩, ⟨"b.md", [], "y", "# Two"⟩] 1
    ⟨"b.md", [], "y", "# Two"⟩ (by decide) (by decide)).1

/-- C5 fails as stated: the code tests `file.endswith('md')` (generator.py
line 84), not the `.md` extension. The file name `"a.amd"` does not end in
`".md"`, yet it is not copied: it is rendered and renamed to `"a.html"`. -/
theorem c5_counterexample :
    suffixOfChars ".md".toList "a.amd".toList = false ∧
    fileAction "a.amd" "payload" ≠ WalkAction.copyFile "a.amd" "payload" ∧
    fileAction "a.amd" "payload" = WalkAction.renderFile "a.html" := by decide

/-- C5 amended: every file whose name does not end in the two characters
`"md"` is copied byte-for-byte to the mirrored path under its own name;
every file whose name ends in `"md"` is rendered and written to
`os.path.splitext(name)[0] + ".html"`. -/
theorem c5_md_suffix_decides_copy_or_render (fname bytes : String) :
    (suffixOfChars "md".toList fname.toList = false →
      fileAction fname bytes = WalkAction.copyFile fname bytes) ∧
    (suffixOfChars "md".toList fname.toList = true →
      fileAction fname bytes =
        WalkAction.renderFile ((py_splitext fname).1 ++ ".html")) := by
  constructor <;> intro h <;>
    simp only [String.toList] at h <;> simp [fileAction, outName, h]

theorem c5_witness :
    fileAction "style.css" "b" = WalkAction.copyFile "style.css" "b" ∧
    fileAction "x.md" "b" = WalkAction.renderFile ((py_splitext "x.md").1 ++ ".html") :=
  ⟨(c5_md_suffix_decides_copy_or_render "style.css" "b").1 (by decide),
    (c5_md_suffix_decides_copy_or_render "x.md" "b").2 (by decide)⟩

/-- C9 fails as stated: with the project directory given but no subcommand,
lines 169-173 run `parser.parse_args(['--help'])`, which prints the usage
text and exits with status 0 — not a non-zero status. -/
theorem c9_counterexample :
    (dispatch false 0).printsUsage = true ∧
    ¬ (dispatch false 0).exitCode ≠ 0 := by decide

/-- C9 amended: when the program is invoked (with a project directory) but
without a subcommand, it prints usage information and exits with status
zero. -/
theorem c9_no_subcommand_prints_usage_exits_zero (subExit : Nat) :
    (dispatch false subExit).printsUsage = true ∧
    (dispatch false subExit).exitCode = 0 :=
  ⟨rfl, rfl⟩

theorem goodFrom_append (a : List WEvent) :
    ∀ (b : List WEvent) (c : List (List String)),
      goodFrom c (a ++ b) = (goodFrom c a && goodFrom (afterCreated c a) b) := by
  induction a with
  | nil => intro b c; simp [goodFrom, afterCreated]
  | cons e rest ih =>
    intro b c
    cases e with
    | mkdir p => simp [goodFrom, afterCreated, ih, Bool.and_assoc]
    | write p f => simp [goodFrom, afterCreated, ih, Bool.and_assoc]

theorem afterCreated_append (a : List WEvent) :
    ∀ (b : List WEvent) (c : List (List String)),
      afterCreated c (a ++ b) = afterCreated (afterCreated c a) b := by
  induction a with
  | nil => intro b c; simp [afterCreated]
  | cons e rest ih =>
    intro b c
    cases e with
    | mkdir p => simp [afterCreated, ih]
    | write p f => simp [afterCreated, ih]

theorem goodFrom_writes (fs : List String) (p : List String)
    (c : List (List String)) (hp : p ∈ c) :
    goodFrom c (fs.map (fun f => WEvent.write p f)) = true ∧
    afterCreated c (fs.map (fun f => WEvent.write p f)) = c := by
  induction fs with
  | nil => exact ⟨rfl, rfl⟩
  | cons f rest ih => simpa [goodFrom, afterCreated, hp] using ih

mutual

theorem walkEvents_good (t : FTree) :
    ∀ (dest : List String) (c : List (List String)),
      (dest = [] ∨ dest.dropLast ∈ c) →
      goodFrom c (walkEvents t dest) = true ∧
      ∀ x ∈ dest :: c, x ∈ afterCreated c (walkEvents t dest) := by
  cases t with
  | node n files subs =>
    intro dest c hdest
    have hw := goodFrom_writes files dest (dest :: c) (List.mem_cons_self dest c)
    have hf := walkForest_good subs dest (dest :: c) (List.mem_cons_self dest c)
    constructor
    · rw [walkEvents, goodFrom, goodFrom_append, hw.1, hw.2, hf.1]
      simp [hdest]
    · intro x hx
      rw [walkEvents, afterCreated, afterCreated_append, hw.2]
      exact hf.2 x hx

theorem walkForest_good (ts : FForest) :
    ∀ (dest : List String) (c : List (List String)),
      dest ∈ c →
      goodFrom c (walkForest ts dest) = true ∧
      ∀ x ∈ c, x ∈ afterCreated c (walkForest ts dest) := by
  cases ts with
  | fnil =>
    intro dest c _
    exact ⟨rfl, fun x hx => hx⟩
  | fcons t rest =>
    intro dest c hdest
    have hpar : (dest ++ [t.name]).dropLast ∈ c := by
      have hdl : (dest ++ [t.name]).dropLast = dest := by simp
      rw [hdl]; exact hdest
    have ht := walkEvents_good t (dest ++ [t.name]) c (Or.inr hpar)
    have hsub : dest ∈ afterCreated c (walkEvents t (dest ++ [t.name])) :=
      ht.2 dest (List.mem_cons_of_mem _ hdest)
    have hrest := walkForest_good rest dest
      (afterCreated c (walkEvents t (dest ++ [t.name]))) hsub
    constructor
    · rw [walkForest, goodFrom_append, ht.1, hrest.1]
      rfl
    · intro x hx
      rw [walkForest, afterCreated_append]
      exact hrest.2 x (ht.2 x (List.mem_cons_of_mem _ hx))

end

/-- C7: the walk's file-system events, replayed from a state where no build
directory exists yet, always target already-created directories: each
directory's `mkdir` (line 82 of generator.py) happens before any file is
written into that directory, and each directory is created after its
parent (the build root, path `[]`, first of all). -/
theorem c7_dirs_created_parent_first_before_writes (t : FTree) :
    goodFrom [] (walkEvents t []) = true :=
  (walkEvents_good t [] [] (Or.inl rfl)).1

end Generator
